import Mathlib

/-!
Shallow embedding of the delivery-lifecycle core of the `order_management`
repository (DeliveryAssignmentService, DeliveryMonitoringService,
PaymentVerificationService) together with the Prisma data model, and proofs
about the embedded operations.

Modelling conventions:
* JavaScript numbers are modelled as exact rationals (`ℚ`); timestamps are
  integer milliseconds since the epoch (`ℤ`), with the local timezone taken
  as UTC.
* The Prisma store is modelled as in-memory lists of records; `update` calls
  become field updates on the record with the matching id.
* Outbound `communicationService.sendMessage` calls are recorded in a `sent`
  list (the message text itself is presentation and is elided; each send is
  identified by its call site and delivery id).  `aIInteraction.create` audit
  rows are fire-and-forget logging and are elided.
* A JavaScript runtime failure (e.g. calling a method on `null`) is modelled
  by `Option`/`Except` results.
-/

namespace OrderMgmt

/-- Delivery status enum from the Prisma schema. -/
inductive DeliveryStatus where
  | ASSIGNED
  | IN_PROGRESS
  | COMPLETED
  | FAILED
  | RESCHEDULED
  | DELIVERED_UNPAID
  | DELIVERED_PAID
  | PAYMENT_DISPUTED
deriving DecidableEq

/-- Order status enum from the Prisma schema. -/
inductive OrderStatus where
  | PENDING
  | CONFIRMED
  | PROCESSING
  | READY_FOR_DELIVERY
  | IN_DELIVERY
  | DELIVERED
  | CANCELLED
  | RETURNED
deriving DecidableEq

/-- User role enum from the Prisma schema. -/
inductive UserRole where
  | ADMIN
  | CUSTOMER
  | DELIVERY_AGENT
  | SUPPORT
deriving DecidableEq

/-- Latitude/longitude pair (the `Json` location blobs in the schema). -/
structure Location where
  latitude : ℚ
  longitude : ℚ
deriving DecidableEq

/-- The `User` model restricted to the fields the delivery core reads or
writes.  `remittanceRating` is a non-null `Float` in the schema; `none` here
models the non-finite values (`NaN`, and the unreachable `-Infinity`) that
`updateAgentRating` can write, so that `rating || 0` is `Option.getD 0`
(`NaN` is falsy in JavaScript). -/
structure User where
  id : ℕ
  role : UserRole
  isAvailable : Bool
  maxWorkload : ℕ
  lastKnownLocation : Option Location
  totalCollections : ℚ
  totalRemittances : ℚ
  remittanceRating : Option ℚ
  fraudIncidents : ℕ
  isRestricted : Bool
  restrictedUntil : Option ℤ
deriving DecidableEq

/-- The `Order` model restricted to the fields the delivery core uses. -/
structure Order where
  id : ℕ
  orderNumber : ℕ
  customerId : ℕ
  status : OrderStatus
  totalAmount : ℚ
  deliveryAddress : String
  deliveryLocation : Location
deriving DecidableEq

/-- A structured fraud flag as produced by `detectFraudPatterns`
(the `evidence` payload is metadata and is elided). -/
structure FraudFlag where
  type : String
  description : String
  severity : ℚ
deriving DecidableEq

/-- The `Delivery` model.  `fraudScore` has schema default `0`, and
`attemptCount` has schema default `1`. -/
structure Delivery where
  id : ℕ
  orderId : ℕ
  agentId : ℕ
  status : DeliveryStatus
  attemptCount : ℕ
  scheduledTime : ℤ
  completedTime : Option ℤ
  currentLocation : Option Location
  lastLocationUpdate : Option ℤ
  estimatedArrival : Option ℤ
  delayMinutes : Option ℤ
  delayNotified : Bool
  humanIntervention : Bool
  cashCollected : Option ℚ
  cashRemitted : Option ℚ
  remittanceTime : Option ℤ
  remittanceVerified : Bool
  remittanceProof : Option String
  fraudScore : Option ℚ
  fraudFlags : List FraudFlag
  restrictedUntil : Option ℤ
  notes : Option String
deriving DecidableEq

/-- Typed failures thrown by the services: the `throw new Error(...)` sites,
plus `typeError` for a JavaScript TypeError raised by a property access on
`undefined` (a relation the Prisma query did not include). -/
inductive Err where
  | orderNotFound
  | deliveryNotFound
  | noAgentsAvailable
  | assignmentFailed
  | typeError
deriving DecidableEq

/-- One `communicationService.sendMessage` call, identified by call site and
delivery id (message text elided). -/
inductive Msg where
  | agentAssignment (deliveryId : ℕ)
  | assignmentCancelled (deliveryId : ℕ)
  | delayCustomer (deliveryId : ℕ)
  | delayAgent (deliveryId : ℕ)
  | adminDelayAlertWhatsapp (deliveryId : ℕ)
  | adminDelayAlertTelegram (deliveryId : ℕ)
  | adminDelayAlertEmail (deliveryId : ℕ)
  | reassignedAgentNotice (deliveryId : ℕ)
deriving DecidableEq

/-- The world state the three services share: the Prisma store plus the two
in-memory timer maps (`assignmentTimers` in DeliveryAssignmentService and
`monitoringIntervals` in DeliveryMonitoringService, both keyed by delivery
id) and the list of outbound messages. -/
structure Store where
  users : List User
  orders : List Order
  deliveries : List Delivery
  assignmentTimers : List ℕ
  monitors : List ℕ
  sent : List Msg
  nextDeliveryId : ℕ
deriving DecidableEq

/-- `prisma.user.findUnique` by id. -/
def findUser (s : Store) (id : ℕ) : Option User :=
  s.users.find? (fun u => decide (u.id = id))

/-- `prisma.order.findUnique` by id. -/
def findOrder (s : Store) (id : ℕ) : Option Order :=
  s.orders.find? (fun o => decide (o.id = id))

/-- `prisma.delivery.findUnique` by id. -/
def findDelivery (s : Store) (id : ℕ) : Option Delivery :=
  s.deliveries.find? (fun d => decide (d.id = id))

/-- `prisma.delivery.update` by id: apply `f` to every record whose id
matches (ids are unique keys in the real store). -/
def updateDelivery (s : Store) (id : ℕ) (f : Delivery → Delivery) : Store :=
  { s with deliveries := s.deliveries.map (fun d => if d.id = id then f d else d) }

/-- `prisma.order.update` by id. -/
def updateOrder (s : Store) (id : ℕ) (f : Order → Order) : Store :=
  { s with orders := s.orders.map (fun o => if o.id = id then f o else o) }

/-- `prisma.user.update` by id. -/
def updateUser (s : Store) (id : ℕ) (f : User → User) : Store :=
  { s with users := s.users.map (fun u => if u.id = id then f u else u) }

/-! ## PaymentVerificationService -/

namespace PaymentVerificationService

/-- `private readonly FRAUD_SCORE_THRESHOLD = 0.7`. -/
def FRAUD_SCORE_THRESHOLD : ℚ := 0.7

/-- `private readonly RESTRICTION_DURATION = 7 * 24 * 60 * 60 * 1000` (7 days in ms). -/
def RESTRICTION_DURATION : ℤ := 7 * 24 * 60 * 60 * 1000

/-- JavaScript `x || dflt` on a nullable number: `null` and `0` are falsy. -/
def jsOrNum (x : Option ℚ) (dflt : ℚ) : ℚ :=
  match x with
  | none => dflt
  | some v => if v = 0 then dflt else v

/-- `calculateFraudScore(delivery)` from PaymentVerificationService.
The weighted sum uses weights 0.3 / 0.2 / 0.3 / 0.2.  The delay term is
`1` exactly when `remittanceTime` is null; when `remittanceTime` is present
the source evaluates `delivery.completedTime!.getTime()`, which is a runtime
TypeError when `completedTime` is null — modelled as `none`. -/
def calculateFraudScore (delivery : Delivery) (agent : User) : Option ℚ :=
  let amountDiscrepancy : ℚ :=
    |jsOrNum delivery.cashCollected 0 - jsOrNum delivery.cashRemitted 0| /
      jsOrNum delivery.cashCollected 1
  let historicalRating : ℚ := 1 - agent.remittanceRating.getD 0
  let fraudHistory : ℚ := min 1 ((agent.fraudIncidents : ℚ) / 5)
  match delivery.remittanceTime with
  | none =>
      some (0.3 * amountDiscrepancy + 0.2 * 1 + 0.3 * historicalRating + 0.2 * fraudHistory)
  | some rt =>
      match delivery.completedTime with
      | none => none
      | some ct =>
          let remittanceDelay : ℚ := min 1 (((rt - ct : ℤ) : ℚ) / (24 * 60 * 60 * 1000))
          some (0.3 * amountDiscrepancy + 0.2 * remittanceDelay +
                0.3 * historicalRating + 0.2 * fraudHistory)

/-- `detectFraudPatterns(delivery)`: an amount-discrepancy flag (severity 0.8)
when collected and remitted differ, and a delayed-remittance flag
(severity 0.5) when remittance happened more than 24 hours after completion. -/
def detectFraudPatterns (delivery : Delivery) : List FraudFlag :=
  let amountFlags : List FraudFlag :=
    if delivery.cashCollected ≠ delivery.cashRemitted then
      [{ type := "amount_discrepancy",
         description := "Remitted amount does not match collected amount",
         severity := 0.8 }]
    else []
  let delayFlags : List FraudFlag :=
    match delivery.remittanceTime, delivery.completedTime with
    | some rt, some ct =>
        let delayHours : ℚ := ((rt - ct : ℤ) : ℚ) / (60 * 60 * 1000)
        if delayHours > 24 then
          [{ type := "delayed_remittance",
             description := "Remittance delayed by more than 24 hours",
             severity := 0.5 }]
        else []
    | _, _ => []
  amountFlags ++ delayFlags

/-- `updateAgentRating(agent)`: `remittanceRating = totalRemittances /
totalCollections`, written back as `Math.min(1, remittanceRating)`.  There is
no divide-by-zero guard: with `totalCollections = 0` JavaScript yields
`+Infinity` (so `Math.min` gives `1`) when `totalRemittances > 0`, and `NaN`
(or `-Infinity`) otherwise — the non-finite results are modelled as `none`. -/
def updateAgentRating (agent : User) : User :=
  let remittanceRating : Option ℚ :=
    if agent.totalCollections ≠ 0 then
      some (min 1 (agent.totalRemittances / agent.totalCollections))
    else if 0 < agent.totalRemittances then some 1
    else none
  { agent with remittanceRating := remittanceRating }

/-- `handleFraudSuspicion`: restrict the agent (`isRestricted := true`,
`fraudIncidents` incremented), write `restrictedUntil = now + 7 days` and
status `PAYMENT_DISPUTED` on the delivery record, and alert the finance
team.  Returns the updated delivery and agent; the finance email is the
`Bool` result of `verifyRemittance` below. -/
def handleFraudSuspicion (now : ℤ) (delivery : Delivery) (agent : User) :
    Delivery × User :=
  let restrictionEnd : ℤ := now + RESTRICTION_DURATION
  ({ delivery with status := .PAYMENT_DISPUTED, restrictedUntil := some restrictionEnd },
   { agent with isRestricted := true, fraudIncidents := agent.fraudIncidents + 1 })

/-- Result of a verification run: the delivery and agent records as left in
the store, plus whether the finance-team fraud alert was sent. -/
structure VerifyOutcome where
  delivery : Delivery
  agent : User
  financeNotified : Bool
deriving DecidableEq

/-- `verifyRemittance(deliveryId)` with the delivery (and its included agent)
already fetched.  The fraud assessment update writes `fraudScore`,
`fraudFlags` (left unchanged when the computed list is empty — Prisma skips
an `undefined` field) and `remittanceVerified = fraudScore <
FRAUD_SCORE_THRESHOLD` in one update; then either branch runs.  `none`
models the TypeError escaping from `calculateFraudScore`. -/
def verifyRemittance (now : ℤ) (delivery : Delivery) (agent : User) :
    Option VerifyOutcome :=
  match calculateFraudScore delivery agent with
  | none => none
  | some fraudScore =>
      let fraudFlags := detectFraudPatterns delivery
      let d1 : Delivery :=
        { delivery with
            fraudScore := some fraudScore
            fraudFlags := if fraudFlags.length > 0 then fraudFlags else delivery.fraudFlags
            remittanceVerified := decide (fraudScore < FRAUD_SCORE_THRESHOLD) }
      if FRAUD_SCORE_THRESHOLD ≤ fraudScore then
        let r := handleFraudSuspicion now d1 agent
        some ⟨r.1, r.2, true⟩
      else
        some ⟨d1, updateAgentRating agent, false⟩

/-- `recordCashRemittance(deliveryId, amount, proofUrl)` with the delivery and
agent fetched: records `cashRemitted`, `remittanceTime`, `remittanceProof`,
sets status `DELIVERED_PAID`, adds the amount to the agent's
`totalRemittances`, then runs `verifyRemittance` (which re-reads the updated
records).  The informational discrepancy alert is a notification only. -/
def recordCashRemittance (now : ℤ) (amount : ℚ) (proofUrl : Option String)
    (delivery : Delivery) (agent : User) : Option VerifyOutcome :=
  let d1 : Delivery :=
    { delivery with
        cashRemitted := some amount
        remittanceTime := some now
        remittanceProof := proofUrl
        status := .DELIVERED_PAID }
  let a1 : User := { agent with totalRemittances := agent.totalRemittances + amount }
  verifyRemittance now d1 a1

/-- Hours elapsed between two timestamps, as used by the spec's
`hoursBetween(completedTime, remittanceTime)`. -/
def hoursBetween (t1 t2 : ℤ) : ℚ := ((t2 - t1 : ℤ) : ℚ) / (60 * 60 * 1000)

/-- `x || 0` on a present number is the identity. -/
theorem jsOrNum_some_zero (x : ℚ) : jsOrNum (some x) 0 = x := by
  unfold jsOrNum; split <;> simp_all

end PaymentVerificationService

/-! ### Concrete records used to exercise the payment service -/

/-- A delivery record with the schema defaults. -/
def baseDelivery : Delivery :=
  { id := 1, orderId := 5, agentId := 10, status := .DELIVERED_PAID,
    attemptCount := 1, scheduledTime := 0, completedTime := some 0,
    currentLocation := none, lastLocationUpdate := none,
    estimatedArrival := none, delayMinutes := none, delayNotified := false,
    humanIntervention := false, cashCollected := none, cashRemitted := none,
    remittanceTime := none, remittanceVerified := false,
    remittanceProof := none, fraudScore := some 0, fraudFlags := [],
    restrictedUntil := none, notes := none }

/-- A delivery-agent user record with the schema defaults. -/
def baseUser : User :=
  { id := 10, role := .DELIVERY_AGENT, isAvailable := true, maxWorkload := 5,
    lastKnownLocation := none, totalCollections := 0, totalRemittances := 0,
    remittanceRating := some 1, fraudIncidents := 0, isRestricted := false,
    restrictedUntil := none }

namespace PaymentVerificationService

/-- Scenario-D delivery: 100 collected, 40 remitted three days after completion. -/
def c1d : Delivery :=
  { baseDelivery with cashCollected := some 100, cashRemitted := some 40,
                      remittanceTime := some 259200000, completedTime := some 0 }

/-- Scenario-D agent: rating 0.5, two prior fraud incidents. -/
def c1a : User := { baseUser with remittanceRating := some (1/2), fraudIncidents := 2 }

/-- Same delivery as scenario D but with `completedTime` missing. -/
def c1dCe : Delivery := { c1d with completedTime := none }

/-- Evaluation lemma for `calculateFraudScore` on fully-populated inputs. -/
theorem calculateFraudScore_eval (d : Delivery) (a : User) (cc cr rr : ℚ)
    (rt ct : ℤ)
    (hcc : d.cashCollected = some cc) (hcc0 : cc ≠ 0)
    (hcr : d.cashRemitted = some cr)
    (hrt : d.remittanceTime = some rt) (hct : d.completedTime = some ct)
    (hrr : a.remittanceRating = some rr) :
    calculateFraudScore d a =
      some (0.3 * (|cc - cr| / cc) +
            0.2 * min 1 (hoursBetween ct rt / 24) +
            0.3 * (1 - rr) +
            0.2 * min 1 ((a.fraudIncidents : ℚ) / 5)) := by
  unfold calculateFraudScore
  rw [hrt, hct, hcc, hcr, hrr, jsOrNum_some_zero, jsOrNum_some_zero]
  have h1 : jsOrNum (some cc) 1 = cc := by unfold jsOrNum; simp [hcc0]
  rw [h1]
  unfold hoursBetween
  rw [div_div]
  norm_num

/-- C1 (amended): for a delivery verified after a remittance is recorded
(`remittanceTime` present) whose `completedTime` is present and whose
`cashCollected` is nonzero, the computed fraud score is
`0.3 * (|cashCollected - cashRemitted| / cashCollected)
 + 0.2 * min(1, hoursBetween(completedTime, remittanceTime)/24)
 + 0.3 * (1 - remittanceRating) + 0.2 * min(1, fraudIncidents/5)`.
(When `completedTime` is absent the source crashes instead of taking the
delay term as 1.0 — see the counterexample.) -/
theorem calculateFraudScore_formula (d : Delivery) (a : User) (cc cr rr : ℚ)
    (rt ct : ℤ)
    (hcc : d.cashCollected = some cc) (hcc0 : cc ≠ 0)
    (hcr : d.cashRemitted = some cr)
    (hrt : d.remittanceTime = some rt) (hct : d.completedTime = some ct)
    (hrr : a.remittanceRating = some rr) :
    calculateFraudScore d a =
      some (0.3 * (|cc - cr| / cc) +
            0.2 * min 1 (hoursBetween ct rt / 24) +
            0.3 * (1 - rr) +
            0.2 * min 1 ((a.fraudIncidents : ℚ) / 5)) :=
  calculateFraudScore_eval d a cc cr rr rt ct hcc hcc0 hcr hrt hct hrr

/-- C1 witness: scenario D evaluates to fraud score 0.61. -/
theorem calculateFraudScore_formula_witness :
    calculateFraudScore c1d c1a = some (61/100) := by
  have h := calculateFraudScore_formula c1d c1a 100 40 (1/2) 259200000 0
    rfl (by norm_num) rfl rfl rfl rfl
  rw [h]
  norm_num [hoursBetween, c1a, baseUser]

/-- C1 counterexample: with `remittanceTime` present but `completedTime`
absent, the claim says the delay term is taken as the maximal risk 1.0; the
source instead evaluates `completedTime!.getTime()` on `null` and crashes,
so no score is produced at all. -/
theorem calculateFraudScore_completedTime_absent_ce :
    c1dCe.completedTime = none ∧
    calculateFraudScore c1dCe c1a ≠
      some (0.3 * (|(100 : ℚ) - 40| / 100) + 0.2 * 1 + 0.3 * (1 - 1/2) +
            0.2 * min 1 ((2 : ℚ) / 5)) := by
  refine ⟨rfl, ?_⟩
  simp [calculateFraudScore, c1dCe, c1d, baseDelivery]

/-- C4: whenever the computed fraud score reaches the 0.7 threshold, the
verification run resolves (no exception): the agent is restricted with
`fraudIncidents` incremented by exactly one, the recorded restriction end is
7 days after the verification time, the delivery status becomes
PAYMENT_DISPUTED, and the finance channel is alerted. -/
theorem verifyRemittance_high_score (now : ℤ) (d : Delivery) (a : User) (s : ℚ)
    (hs : calculateFraudScore d a = some s) (hth : FRAUD_SCORE_THRESHOLD ≤ s) :
    (verifyRemittance now d a).map (fun o =>
        (o.agent.isRestricted, o.agent.fraudIncidents, o.delivery.status,
         o.delivery.restrictedUntil, o.financeNotified))
      = some (true, a.fraudIncidents + 1, .PAYMENT_DISPUTED,
              some (now + 7 * 24 * 60 * 60 * 1000), true) := by
  unfold verifyRemittance
  rw [hs]
  simp [hth, handleFraudSuspicion, RESTRICTION_DURATION]

/-- Delivery driving the fraud score to 0.8: nothing remitted. -/
def c4d : Delivery :=
  { baseDelivery with cashCollected := some 100, cashRemitted := some 0,
                      remittanceTime := some 0, completedTime := some 0 }

/-- Agent with the worst rating and five prior incidents. -/
def c4a : User := { baseUser with remittanceRating := some 0, fraudIncidents := 5 }

/-- C4 witness: a concrete verification run with score 0.8 restricts the
agent for 7 days, increments `fraudIncidents` from 5 to 6 and disputes the
delivery. -/
theorem verifyRemittance_high_score_witness :
    (verifyRemittance 0 c4d c4a).map (fun o =>
        (o.agent.isRestricted, o.agent.fraudIncidents, o.delivery.status,
         o.delivery.restrictedUntil, o.financeNotified))
      = some (true, 6, .PAYMENT_DISPUTED, some 604800000, true) := by
  have hscore : calculateFraudScore c4d c4a = some (4/5) := by
    rw [calculateFraudScore_eval c4d c4a 100 0 0 0 0 rfl (by norm_num) rfl rfl rfl rfl]
    norm_num [hoursBetween, c4a, baseUser]
  have h := verifyRemittance_high_score 0 c4d c4a (4/5) hscore
    (by norm_num [FRAUD_SCORE_THRESHOLD])
  rw [h]
  norm_num [c4a, baseUser]

/-- C5 (amended): whenever the computed fraud score is below 0.7, the run
sets `remittanceVerified = true`, leaves the delivery status and the agent's
restriction state and incident count unchanged, sends no finance alert, and
recomputes the agent's rating as `min(1, totalRemittances/totalCollections)`
— with no divide-by-zero guard: when `totalCollections = 0` the update still
runs, yielding rating 1 (`min(1, +Infinity)`) if `totalRemittances > 0` and
a non-finite rating (`NaN`) otherwise, rather than leaving it unchanged. -/
theorem verifyRemittance_low_score (now : ℤ) (d : Delivery) (a : User) (s : ℚ)
    (hs : calculateFraudScore d a = some s) (hlt : s < FRAUD_SCORE_THRESHOLD) :
    (verifyRemittance now d a).map (fun o =>
        (o.delivery.remittanceVerified, o.delivery.status, o.agent.isRestricted,
         o.agent.fraudIncidents, o.agent.remittanceRating, o.financeNotified))
      = some (true, d.status, a.isRestricted, a.fraudIncidents,
              if a.totalCollections ≠ 0 then
                some (min 1 (a.totalRemittances / a.totalCollections))
              else if 0 < a.totalRemittances then some 1 else none,
              false) := by
  unfold verifyRemittance
  rw [hs]
  simp [if_neg (not_le.mpr hlt), updateAgentRating, hlt]

/-- Scenario-D agent with collection history 150/200. -/
def c5a : User :=
  { baseUser with remittanceRating := some (1/2), fraudIncidents := 2,
                  totalCollections := 200, totalRemittances := 150 }

/-- C5 witness: scenario D (score 0.61) verifies the remittance and
recomputes the rating to 150/200 = 0.75. -/
theorem verifyRemittance_low_score_witness :
    (verifyRemittance 0 c1d c5a).map (fun o =>
        (o.delivery.remittanceVerified, o.delivery.status, o.agent.isRestricted,
         o.agent.fraudIncidents, o.agent.remittanceRating, o.financeNotified))
      = some (true, .DELIVERED_PAID, false, 2, some (3/4), false) := by
  have hscore : calculateFraudScore c1d c5a = some (61/100) := by
    rw [calculateFraudScore_eval c1d c5a 100 40 (1/2) 259200000 0
      rfl (by norm_num) rfl rfl rfl rfl]
    norm_num [hoursBetween, c5a, baseUser]
  have h := verifyRemittance_low_score 0 c1d c5a (61/100) hscore
    (by norm_num [FRAUD_SCORE_THRESHOLD])
  rw [h]
  norm_num [c1d, baseDelivery, c5a, baseUser]

/-- A clean remittance (no discrepancy, no delay). -/
def c5dCe : Delivery :=
  { baseDelivery with cashCollected := some 100, cashRemitted := some 100,
                      remittanceTime := some 0, completedTime := some 0 }

/-- Agent who has never had a collection recorded but has remittances. -/
def c5aCe : User :=
  { baseUser with totalCollections := 0, totalRemittances := 5,
                  remittanceRating := some (1/2), fraudIncidents := 0 }

/-- C5 counterexample: with `totalCollections = 0` the claim says the rating
stays unchanged (0.5); the code performs the unguarded division
(`5 / 0 = +Infinity` in JavaScript) and writes rating `min(1, +Infinity) = 1`. -/
theorem updateAgentRating_div_zero_ce :
    c5aCe.totalCollections = 0 ∧ c5aCe.remittanceRating = some (1/2) ∧
    (verifyRemittance 0 c5dCe c5aCe).map (fun o => o.agent.remittanceRating)
      = some (some 1) := by
  refine ⟨rfl, rfl, ?_⟩
  have hscore : calculateFraudScore c5dCe c5aCe = some (3/20) := by
    rw [calculateFraudScore_eval c5dCe c5aCe 100 100 (1/2) 0 0
      rfl (by norm_num) rfl rfl rfl rfl]
    norm_num [hoursBetween, c5aCe, baseUser]
  unfold verifyRemittance
  rw [hscore]
  have hlt : ¬(FRAUD_SCORE_THRESHOLD ≤ 3/20) := by norm_num [FRAUD_SCORE_THRESHOLD]
  norm_num [if_neg hlt, updateAgentRating, c5aCe, baseUser]

/-- C10: every completed verification run records `fraudScore` and sets
`remittanceVerified = (fraudScore < 0.7)` in the same delivery update, and
the combination status = PAYMENT_DISPUTED with `remittanceVerified = true`
is never observable after `recordCashRemittance`. -/
theorem recordCashRemittance_disputed_never_verified (now : ℤ) (amount : ℚ)
    (proofUrl : Option String) (d : Delivery) (a : User) (out : VerifyOutcome)
    (h : recordCashRemittance now amount proofUrl d a = some out) :
    (∃ s, out.delivery.fraudScore = some s ∧
          out.delivery.remittanceVerified = decide (s < FRAUD_SCORE_THRESHOLD)) ∧
    ¬(out.delivery.status = .PAYMENT_DISPUTED ∧
      out.delivery.remittanceVerified = true) := by
  unfold recordCashRemittance verifyRemittance at h
  dsimp only at h
  split at h
  · exact absurd h (by simp)
  · rename_i fs hfs
    split at h
    · rename_i hge
      rw [Option.some_inj] at h
      subst h
      refine ⟨⟨fs, by simp [handleFraudSuspicion], by simp [handleFraudSuspicion]⟩, ?_⟩
      rintro ⟨-, hv⟩
      simp only [handleFraudSuspicion, decide_eq_true_eq] at hv
      exact absurd hv (not_lt.mpr hge)
    · rename_i hge
      rw [Option.some_inj] at h
      subst h
      exact ⟨⟨fs, rfl, rfl⟩, by rintro ⟨hst, -⟩; simp at hst⟩

/-- Pre-remittance delivery for the C10 witness. -/
def c10d : Delivery :=
  { baseDelivery with cashCollected := some 100, completedTime := some 0,
                      status := .DELIVERED_UNPAID }

/-- Agent for the C10 witness (totals become 150/200 after the remittance). -/
def c10a : User :=
  { baseUser with remittanceRating := some (1/2), fraudIncidents := 2,
                  totalCollections := 200, totalRemittances := 110 }

/-- C10 witness: a concrete remittance run never yields a PAYMENT_DISPUTED
delivery with `remittanceVerified = true`. -/
theorem recordCashRemittance_disputed_never_verified_witness :
    (recordCashRemittance 259200000 40 none c10d c10a).map
        (fun o => decide (o.delivery.status = DeliveryStatus.PAYMENT_DISPUTED ∧
                          o.delivery.remittanceVerified = true))
      ≠ some true := by
  rcases he : recordCashRemittance 259200000 40 none c10d c10a with _ | out
  · simp
  · have h :=
      (recordCashRemittance_disputed_never_verified 259200000 40 none c10d c10a out he).2
    simp [h]

end PaymentVerificationService

/-! ## DeliveryAssignmentService -/

namespace DeliveryAssignmentService

/-- The per-candidate record built by `calculateAgentScore`. -/
structure AgentScore where
  agentId : ℕ
  score : ℚ
  distance : ℚ
  workload : ℕ
  successRate : ℚ
deriving DecidableEq

/-- `ASSIGNMENT_TIMEOUT = 15 * 60 * 1000` (15 minutes). -/
def ASSIGNMENT_TIMEOUT : ℤ := 15 * 60 * 1000

/-- `findAvailableAgents()`: the Prisma query filters on
`role: 'DELIVERY_AGENT'` only — the comment in the source defers "any
additional availability criteria" (breaks, working hours, restriction,
workload) and none are implemented. -/
def findAvailableAgents (s : Store) : List User :=
  s.users.filter (fun u => decide (u.role = .DELIVERY_AGENT))

/-- The `deliveries` relation included by `findAvailableAgents`: this
agent's deliveries with status ASSIGNED or IN_PROGRESS. -/
def activeDeliveries (s : Store) (agentId : ℕ) : List Delivery :=
  s.deliveries.filter (fun d =>
    decide (d.agentId = agentId ∧ (d.status = .ASSIGNED ∨ d.status = .IN_PROGRESS)))

/-- `calculateDistance(agentLocation, deliveryAddress)`: a placeholder that
returns the constant normalized distance 1 (0.5 only on an exception, which
cannot occur here). -/
def calculateDistance (agentLocation : Option Location)
    (deliveryAddress : String) : ℚ :=
  1

/-- `calculateSuccessRate(agentId)`: completed / (completed + failed) over
the agent's COMPLETED and FAILED deliveries, defaulting to 0.5 with no
history. -/
def calculateSuccessRate (s : Store) (agentId : ℕ) : ℚ :=
  let deliveryHistory := s.deliveries.filter (fun d =>
    decide (d.agentId = agentId ∧ (d.status = .COMPLETED ∨ d.status = .FAILED)))
  if deliveryHistory.length = 0 then 0.5
  else
    let successfulDeliveries :=
      (deliveryHistory.filter (fun d => decide (d.status = .COMPLETED))).length
    (successfulDeliveries : ℚ) / (deliveryHistory.length : ℚ)

/-- `computeFinalScore(distance, workload, successRate)`: weights 0.4 / 0.3 /
0.3, with workload normalized against the fixed constant 10 (not the agent's
`maxWorkload`, which this function never receives). -/
def computeFinalScore (distance : ℚ) (workload : ℚ) (successRate : ℚ) : ℚ :=
  let normalizedWorkload := max 0 (1 - workload / 10)
  0.4 * (1 - distance) + 0.3 * normalizedWorkload + 0.3 * successRate

/-- `calculateAgentScore(agent, order)`. -/
def calculateAgentScore (s : Store) (agent : User) (order : Order) : AgentScore :=
  let distance := calculateDistance agent.lastKnownLocation order.deliveryAddress
  let workload := (activeDeliveries s agent.id).length
  let successRate := calculateSuccessRate s agent.id
  { agentId := agent.id,
    score := computeFinalScore distance (workload : ℚ) successRate,
    distance := distance, workload := workload, successRate := successRate }

/-- Stable descending insertion used to model
`agentScores.sort((a, b) => b.score - a.score)` (JavaScript `Array.sort` is
stable: an element is inserted before the first element whose score does not
exceed it, so earlier elements stay ahead of later equal-scored ones). -/
def insertDesc (x : AgentScore) : List AgentScore → List AgentScore
  | [] => [x]
  | y :: ys => if y.score ≤ x.score then x :: y :: ys else y :: insertDesc x ys

/-- Stable sort by descending score. -/
def sortByScoreDesc : List AgentScore → List AgentScore
  | [] => []
  | x :: xs => insertDesc x (sortByScoreDesc xs)

/-- The delivery record created by `prisma.delivery.create` in
`attemptAssignment`: only `orderId`, `agentId`, `status: ASSIGNED` and
`scheduledTime: now + 30 minutes` are passed; every other field (including
`attemptCount`, which therefore stays 1) takes its schema default. -/
def newDelivery (now : ℤ) (orderId agentId : ℕ) (id : ℕ) : Delivery :=
  { id := id, orderId := orderId, agentId := agentId, status := .ASSIGNED,
    attemptCount := 1, scheduledTime := now + 30 * 60 * 1000,
    completedTime := none, currentLocation := none, lastLocationUpdate := none,
    estimatedArrival := none, delayMinutes := none, delayNotified := false,
    humanIntervention := false, cashCollected := none, cashRemitted := none,
    remittanceTime := none, remittanceVerified := false,
    remittanceProof := none, fraudScore := some 0, fraudFlags := [],
    restrictedUntil := none, notes := none }

/-- `setAssignmentTimer`: `Map.set` semantics on the timer map keyed by
delivery id. -/
def setAssignmentTimer (s : Store) (deliveryId : ℕ) : Store :=
  if deliveryId ∈ s.assignmentTimers then s
  else { s with assignmentTimers := s.assignmentTimers ++ [deliveryId] }

/-- `clearAssignmentTimer`: `clearTimeout` plus `Map.delete`. -/
def clearAssignmentTimer (s : Store) (deliveryId : ℕ) : Store :=
  { s with assignmentTimers := s.assignmentTimers.filter (fun x => decide (x ≠ deliveryId)) }

/-- `notifyAgent(delivery)`: builds the assignment message from
`delivery.order.orderNumber` and `delivery.order.deliveryAddress`.  Whether
the passed object carries its `order` relation depends on the caller's
Prisma `include`, so that relation is a parameter here; when it is absent
the property access throws a TypeError before any message is sent.  The
sole caller, `attemptAssignment`, creates the delivery with
`include: { agent: true }` only, so it always passes `none`. -/
def notifyAgent (includedOrder : Option Order) (deliveryId : ℕ) (s : Store) :
    Store × Except Err Unit :=
  match includedOrder with
  | none => (s, .error .typeError)
  | some _ => ({ s with sent := s.sent ++ [Msg.agentAssignment deliveryId] }, .ok ())

/-- `attemptAssignment(order, sortedAgents)`: each iteration persists an
ASSIGNED delivery row, then calls `notifyAgent` on the created object —
created with `include: { agent: true }` only, so its `order` relation is
`undefined` and the notification throws a TypeError, which the loop's catch
swallows (`continue`) before trying the next candidate.  `setAssignmentTimer`
is therefore unreachable, and after the last candidate the loop falls
through to `throw new Error('Failed to assign order to any available
agent')`.  Exceptions do not roll back the store, so the result carries the
store with all created rows alongside the outcome. -/
def attemptAssignment (now : ℤ) (order : Order) (sortedAgents : List AgentScore)
    (s : Store) : Store × Except Err Unit :=
  match sortedAgents with
  | [] => (s, .error .assignmentFailed)
  | top :: rest =>
      let d := newDelivery now order.id top.agentId s.nextDeliveryId
      let s1 := { s with deliveries := s.deliveries ++ [d],
                         nextDeliveryId := s.nextDeliveryId + 1 }
      match notifyAgent none d.id s1 with
      | (s2, .ok _) => (setAssignmentTimer s2 d.id, .ok ())
      | (s2, .error _) => attemptAssignment now order rest s2

/-- `assignDeliveryAgent(orderId)`: fetch the order, enumerate agents via
`findAvailableAgents` (throwing `No delivery agents available` when empty),
score them, sort descending by score, and attempt assignment. -/
def assignDeliveryAgent (now : ℤ) (orderId : ℕ) (s : Store) :
    Store × Except Err Unit :=
  match findOrder s orderId with
  | none => (s, .error .orderNotFound)
  | some order =>
      let availableAgents := findAvailableAgents s
      if availableAgents.length = 0 then (s, .error .noAgentsAvailable)
      else
        let agentScores := availableAgents.map (fun a => calculateAgentScore s a order)
        let sortedAgents := sortByScoreDesc agentScores
        attemptAssignment now order sortedAgents s

/-- The two writes performed by `handleUnconfirmedAssignment` before it
reassigns: the delivery is marked FAILED and the agent is notified of the
cancellation. -/
def failAndNotify (s : Store) (deliveryId : ℕ) : Store :=
  let s1 := updateDelivery s deliveryId (fun d => { d with status := .FAILED })
  { s1 with sent := s1.sent ++ [Msg.assignmentCancelled deliveryId] }

/-- `handleUnconfirmedAssignment(delivery)` — fired by the (in fact
never-armed) 15-minute timer and by an agent rejection.  It re-fetches the
delivery and no-ops unless it is still ASSIGNED; then it marks the delivery
FAILED and builds the cancellation message from the closure object's
`order` relation — a TypeError when that relation was not included (the
objects `attemptAssignment` creates), hence the relation is a parameter —
and finally reassigns via a fresh `assignDeliveryAgent` pass on
`delivery.order.id`. -/
def handleUnconfirmedAssignment (now : ℤ) (deliveryId : ℕ)
    (includedOrder : Option Order) (s : Store) : Store × Except Err Unit :=
  match findDelivery s deliveryId with
  | none => (s, .ok ())
  | some currentDelivery =>
      if currentDelivery.status ≠ .ASSIGNED then (s, .ok ())
      else
        match includedOrder with
        | none =>
            (updateDelivery s deliveryId (fun d => { d with status := .FAILED }),
             .error .typeError)
        | some o => assignDeliveryAgent now o.id (failAndNotify s deliveryId)

/-- `handleAgentConfirmation(deliveryId, confirmed)`: the fetch includes
`{ order: true, agent: true }`.  On acceptance, the delivery→IN_PROGRESS and
order→IN_DELIVERY updates commit in one transaction and the assignment timer
is cleared; the customer notification then reads
`delivery.order.customer.phone`, but `customer` is not included, so the
access throws a TypeError after those effects and no message is sent.  On
rejection it behaves exactly like the confirmation timeout, passing the
fetched object, whose `order` relation is included. -/
def handleAgentConfirmation (now : ℤ) (deliveryId : ℕ) (confirmed : Bool)
    (s : Store) : Store × Except Err Unit :=
  match findDelivery s deliveryId with
  | none => (s, .error .deliveryNotFound)
  | some delivery =>
      if confirmed then
        let s1 := updateDelivery s deliveryId (fun d => { d with status := .IN_PROGRESS })
        let s2 := updateOrder s1 delivery.orderId (fun o => { o with status := .IN_DELIVERY })
        let s3 := clearAssignmentTimer s2 deliveryId
        (s3, .error .typeError)
      else
        handleUnconfirmedAssignment now deliveryId (findOrder s delivery.orderId) s

end DeliveryAssignmentService

/-- Finding the updated id after an id-preserving update returns the updated
record. -/
theorem find_map_update (l : List Delivery) (id : ℕ) (f : Delivery → Delivery)
    (hf : ∀ d, (f d).id = d.id) :
    (l.map (fun d => if d.id = id then f d else d)).find?
        (fun d => decide (d.id = id))
      = (l.find? (fun d => decide (d.id = id))).map f := by
  induction l with
  | nil => rfl
  | cons a l ih =>
      by_cases ha : a.id = id
      · rw [List.map_cons, if_pos ha,
          List.find?_cons_of_pos _ (by simp [hf, ha]),
          List.find?_cons_of_pos _ (by simp [ha])]
        rfl
      · rw [List.map_cons, if_neg ha,
          List.find?_cons_of_neg _ (by simp [ha]),
          List.find?_cons_of_neg _ (by simp [ha]), ih]

/-- `findDelivery` after an id-preserving `updateDelivery` at the same id. -/
theorem findDelivery_updateDelivery (s : Store) (id : ℕ) (f : Delivery → Delivery)
    (hf : ∀ d, (f d).id = d.id) :
    findDelivery (updateDelivery s id f) id = (findDelivery s id).map f :=
  find_map_update s.deliveries id f hf

namespace DeliveryAssignmentService

/-- Modelled from the spec: the ScoringEngine signature
`agentFitness(distanceNorm, workloadCount, workloadMax, successRate)` — a
weighted sum with distance weight 0.4 (term `1 - distanceNorm`), workload
weight 0.3 (term `max(0, 1 - workloadCount/10)`, a fixed normalization
constant not derived from `maxWorkload`), success-rate weight 0.3. -/
def agentFitness_spec (distanceNorm workloadCount workloadMax successRate : ℚ) : ℚ :=
  0.4 * (1 - distanceNorm) + 0.3 * max 0 (1 - workloadCount / 10) + 0.3 * successRate

/-- C8: the source's `computeFinalScore` equals the spec's weighted sum
`0.4*(1-distanceNorm) + 0.3*max(0, 1-workloadCount/10) + 0.3*successRate`
for all inputs; it coincides with the four-argument spec fitness for every
`workloadMax` (the fixed divisor 10 is used; the function does not even
receive `maxWorkload`); and on inputs in their stated ranges the result
lies in [0, 1]. -/
theorem computeFinalScore_spec (distanceNorm workloadCount workloadMax successRate : ℚ)
    (hd0 : 0 ≤ distanceNorm) (hd1 : distanceNorm ≤ 1)
    (hw : 0 ≤ workloadCount)
    (hs0 : 0 ≤ successRate) (hs1 : successRate ≤ 1) :
    computeFinalScore distanceNorm workloadCount successRate
      = 0.4 * (1 - distanceNorm) + 0.3 * max 0 (1 - workloadCount / 10)
        + 0.3 * successRate ∧
    agentFitness_spec distanceNorm workloadCount workloadMax successRate
      = computeFinalScore distanceNorm workloadCount successRate ∧
    0 ≤ computeFinalScore distanceNorm workloadCount successRate ∧
    computeFinalScore distanceNorm workloadCount successRate ≤ 1 := by
  have hmax0 : (0 : ℚ) ≤ max 0 (1 - workloadCount / 10) := le_max_left _ _
  have hdiv : (0 : ℚ) ≤ workloadCount / 10 := by positivity
  have hmax1 : max 0 (1 - workloadCount / 10) ≤ 1 :=
    max_le (by norm_num) (by linarith)
  refine ⟨rfl, rfl, ?_, ?_⟩
  · unfold computeFinalScore
    dsimp only
    have h1d : (0 : ℚ) ≤ 1 - distanceNorm := by linarith
    nlinarith [hmax0, hs0, h1d]
  · unfold computeFinalScore
    dsimp only
    nlinarith [hmax1, hs1, hd0]

/-- C8 witness: the fitness identities and bounds at distance 0.5, workload
3, workloadMax 7, success rate 0.5. -/
theorem computeFinalScore_spec_witness :
    computeFinalScore (1/2) 3 (1/2)
      = 0.4 * (1 - 1/2) + 0.3 * max 0 (1 - (3 : ℚ) / 10) + 0.3 * (1/2) ∧
    agentFitness_spec (1/2) 3 7 (1/2) = computeFinalScore (1/2) 3 (1/2) ∧
    0 ≤ computeFinalScore (1/2) 3 (1/2) ∧
    computeFinalScore (1/2) 3 (1/2) ≤ 1 :=
  computeFinalScore_spec (1/2) 3 7 (1/2) (by norm_num) (by norm_num)
    (by norm_num) (by norm_num) (by norm_num)

/-- A delivery agent restricted until one day after the epoch. -/
def c2Restricted : User :=
  { baseUser with id := 21, isRestricted := true, restrictedUntil := some 86400000 }

/-- Store holding only the restricted agent. -/
def c2Store : Store :=
  { users := [c2Restricted], orders := [], deliveries := [],
    assignmentTimers := [], monitors := [], sent := [], nextDeliveryId := 1 }

/-- C2: `findAvailableAgents` filters on role only, so at time 0 it returns
the agent whose `isRestricted = true` and whose `restrictedUntil` (one day
after the epoch) is still in the future, contradicting the eligibility
filter and the never-returned invariant. -/
theorem findAvailableAgents_returns_restricted_agent :
    findAvailableAgents c2Store = [c2Restricted] ∧
    c2Restricted.isRestricted = true ∧
    c2Restricted.restrictedUntil = some 86400000 ∧ (0 : ℤ) < 86400000 :=
  ⟨rfl, rfl, rfl, by norm_num⟩

/-- Sole delivery agent of the reassignment scenario. -/
def c3Agent : User := { baseUser with id := 10 }

/-- The order being delivered. -/
def c3Order : Order :=
  { id := 5, orderNumber := 1001, customerId := 2, status := .CONFIRMED,
    totalAmount := 100, deliveryAddress := "somewhere",
    deliveryLocation := { latitude := 0, longitude := 0 } }

/-- The delivery awaiting confirmation. -/
def c3Delivery : Delivery :=
  { baseDelivery with id := 1, orderId := 5, agentId := 10, status := .ASSIGNED }

/-- World with a single agent whose assignment is about to time out. -/
def c3Store : Store :=
  { users := [c3Agent], orders := [c3Order], deliveries := [c3Delivery],
    assignmentTimers := [1], monitors := [], sent := [], nextDeliveryId := 2 }

/-- Every iteration of the assignment loop persists one ASSIGNED row and
then fails to notify the candidate (the created object has no `order`
relation), so the loop arms no timer, sends nothing, and always falls
through to the final throw. -/
theorem attemptAssignment_spec (now : ℤ) (order : Order)
    (sortedAgents : List AgentScore) (s : Store) :
    (attemptAssignment now order sortedAgents s).2 = .error .assignmentFailed ∧
    (attemptAssignment now order sortedAgents s).1.assignmentTimers
      = s.assignmentTimers ∧
    (attemptAssignment now order sortedAgents s).1.sent = s.sent ∧
    (attemptAssignment now order sortedAgents s).1.deliveries.length
      = s.deliveries.length + sortedAgents.length := by
  induction sortedAgents generalizing s with
  | nil => exact ⟨rfl, rfl, rfl, rfl⟩
  | cons top rest ih =>
      have hstep : attemptAssignment now order (top :: rest) s
          = attemptAssignment now order rest
              { s with deliveries :=
                         s.deliveries ++ [newDelivery now order.id top.agentId s.nextDeliveryId],
                       nextDeliveryId := s.nextDeliveryId + 1 } := rfl
      rw [hstep]
      obtain ⟨h1, h2, h3, h4⟩ := ih _
      refine ⟨h1, h2, h3, ?_⟩
      rw [h4]
      simp [List.length_append]
      omega

/-- `assignDeliveryAgent` never succeeds — every branch throws — and it
never arms a confirmation timer. -/
theorem assignDeliveryAgent_never_ok (now : ℤ) (orderId : ℕ) (s : Store) :
    (assignDeliveryAgent now orderId s).2 ≠ .ok () ∧
    (assignDeliveryAgent now orderId s).1.assignmentTimers
      = s.assignmentTimers := by
  unfold assignDeliveryAgent
  split
  · exact ⟨by simp, rfl⟩
  · rename_i order horder
    dsimp only
    split
    · exact ⟨by simp, rfl⟩
    · obtain ⟨h1, h2, -, -⟩ := attemptAssignment_spec now order
        (sortByScoreDesc ((findAvailableAgents s).map
          (fun a => calculateAgentScore s a order))) s
      exact ⟨by rw [h1]; simp, h2⟩

/-- C3 counterexample: with a single ranked agent, the claim demands
escalation to the *next* ranked candidate — hence `AssignmentExhausted`
here, never the same agent, and `attemptCount = 2` on a retry.  The code
instead marks the delivery FAILED, runs a fresh selection pass that
persists a new ASSIGNED row for the *same* agent (id 10) with
`attemptCount = 1` (the schema default), and ends by throwing the generic
`Failed to assign order to any available agent`. -/
theorem handleUnconfirmed_reassigns_same_agent_ce :
    (handleUnconfirmedAssignment 0 1 (some c3Order) c3Store).2
      = .error .assignmentFailed ∧
    (findDelivery (handleUnconfirmedAssignment 0 1 (some c3Order) c3Store).1 1).map
        Delivery.status = some .FAILED ∧
    (findDelivery (handleUnconfirmedAssignment 0 1 (some c3Order) c3Store).1 2).map
        (fun d => (d.agentId, d.status, d.attemptCount))
      = some (10, .ASSIGNED, 1) :=
  ⟨rfl, rfl, rfl⟩

/-- C3 (amended): the 15-minute confirmation timer is never armed in the
first place (`attemptAssignment`'s notification throws a TypeError before
`setAssignmentTimer`), so the timeout escalation cannot actually fire; when
the handler does run on a still-ASSIGNED delivery (the agent-rejection
path, whose fetched object carries its order relation), the delivery
transitions to FAILED and the order is reassigned by a fresh
`assignDeliveryAgent` selection pass over a candidate pool unchanged by the
failure (so the same agent can be picked again); no ranked-list
fallthrough, attempt counter or `AssignmentExhausted` error exists — the
fresh pass persists one ASSIGNED row per candidate, arms no timer, and
always throws (`noAgentsAvailable` / `assignmentFailed` / a missing-order
error), never returning successfully. -/
theorem handleUnconfirmed_is_fresh_selection (now : ℤ) (deliveryId : ℕ)
    (o : Order) (s : Store) (d : Delivery)
    (hf : findDelivery s deliveryId = some d) (hs : d.status = .ASSIGNED) :
    handleUnconfirmedAssignment now deliveryId (some o) s
      = assignDeliveryAgent now o.id (failAndNotify s deliveryId) ∧
    (findDelivery (failAndNotify s deliveryId) deliveryId).map Delivery.status
      = some .FAILED ∧
    findAvailableAgents (failAndNotify s deliveryId) = findAvailableAgents s ∧
    (handleUnconfirmedAssignment now deliveryId (some o) s).2 ≠ .ok () ∧
    (handleUnconfirmedAssignment now deliveryId (some o) s).1.assignmentTimers
      = s.assignmentTimers := by
  have hmain : handleUnconfirmedAssignment now deliveryId (some o) s
      = assignDeliveryAgent now o.id (failAndNotify s deliveryId) := by
    unfold handleUnconfirmedAssignment
    rw [hf]
    simp [hs]
  obtain ⟨hok, htimers⟩ := assignDeliveryAgent_never_ok now o.id (failAndNotify s deliveryId)
  refine ⟨hmain, ?_, rfl, ?_, ?_⟩
  · show (findDelivery (updateDelivery s deliveryId (fun d => { d with status := .FAILED }))
        deliveryId).map Delivery.status = some .FAILED
    rw [findDelivery_updateDelivery s deliveryId
      (fun d => { d with status := .FAILED }) (fun d => rfl), hf]
    rfl
  · rw [hmain]
    exact hok
  · rw [hmain, htimers]
    rfl

/-- C3 witness: the single-agent world satisfies the amended description —
the rejected delivery fails, the fresh pass runs from the failure-updated
store with an unchanged candidate pool, never succeeds, and arms no timer. -/
theorem handleUnconfirmed_is_fresh_selection_witness :
    handleUnconfirmedAssignment 0 1 (some c3Order) c3Store
      = assignDeliveryAgent 0 c3Order.id (failAndNotify c3Store 1) ∧
    (findDelivery (failAndNotify c3Store 1) 1).map Delivery.status
      = some .FAILED ∧
    findAvailableAgents (failAndNotify c3Store 1) = findAvailableAgents c3Store ∧
    (handleUnconfirmedAssignment 0 1 (some c3Order) c3Store).2 ≠ .ok () ∧
    (handleUnconfirmedAssignment 0 1 (some c3Order) c3Store).1.assignmentTimers
      = c3Store.assignmentTimers :=
  handleUnconfirmed_is_fresh_selection 0 1 c3Order c3Store c3Delivery rfl rfl

/-- C7: for every delivery confirmed via `confirmAssignment(id, true)`, the
timeout escalation never fires: the confirmation commits the
ASSIGNED→IN_PROGRESS transition and cancels the armed confirmation timer —
both effects land before the customer notification throws its TypeError
(`delivery.order.customer` is not included in the fetch) — and a timeout
callback firing afterwards re-checks the delivery's current status and
performs no action (state unchanged, no notification, no reassignment),
whatever `order` relation its closure object carried. -/
theorem confirmAssignment_cancels_timeout (now now2 : ℤ) (deliveryId : ℕ)
    (s : Store) (d : Delivery)
    (hf : findDelivery s deliveryId = some d) :
    deliveryId ∉ (handleAgentConfirmation now deliveryId true s).1.assignmentTimers ∧
    (findDelivery (handleAgentConfirmation now deliveryId true s).1 deliveryId).map
        Delivery.status = some .IN_PROGRESS ∧
    (handleAgentConfirmation now deliveryId true s).2 = .error .typeError ∧
    ∀ io : Option Order,
      handleUnconfirmedAssignment now2 deliveryId io
          (handleAgentConfirmation now deliveryId true s).1
        = ((handleAgentConfirmation now deliveryId true s).1, .ok ()) := by
  have hres : handleAgentConfirmation now deliveryId true s
      = (clearAssignmentTimer
          (updateOrder (updateDelivery s deliveryId fun d0 => { d0 with status := .IN_PROGRESS })
            d.orderId fun o => { o with status := .IN_DELIVERY })
          deliveryId, .error .typeError) := by
    unfold handleAgentConfirmation
    rw [hf]
    rfl
  rw [hres]
  have hfind : findDelivery
      (clearAssignmentTimer
        (updateOrder (updateDelivery s deliveryId fun d0 => { d0 with status := .IN_PROGRESS })
          d.orderId fun o => { o with status := .IN_DELIVERY })
        deliveryId) deliveryId
      = some { d with status := .IN_PROGRESS } := by
    show findDelivery (updateDelivery s deliveryId fun d0 => { d0 with status := .IN_PROGRESS })
        deliveryId = some { d with status := .IN_PROGRESS }
    rw [findDelivery_updateDelivery s deliveryId
      (fun d0 => { d0 with status := .IN_PROGRESS }) (fun d0 => rfl), hf]
    rfl
  refine ⟨?_, ?_, rfl, ?_⟩
  · simp [clearAssignmentTimer, updateOrder, updateDelivery, List.mem_filter]
  · rw [hfind]; rfl
  · intro io
    unfold handleUnconfirmedAssignment
    rw [hfind]
    simp

/-- Order for the confirmation scenario. -/
def c7Order : Order :=
  { id := 8, orderNumber := 1002, customerId := 2, status := .CONFIRMED,
    totalAmount := 50, deliveryAddress := "elsewhere",
    deliveryLocation := { latitude := 0, longitude := 0 } }

/-- Delivery awaiting agent confirmation, timer armed. -/
def c7Delivery : Delivery :=
  { baseDelivery with id := 7, orderId := 8, agentId := 10, status := .ASSIGNED }

/-- World in which the agent is about to accept. -/
def c7Store : Store :=
  { users := [baseUser], orders := [c7Order], deliveries := [c7Delivery],
    assignmentTimers := [7], monitors := [], sent := [], nextDeliveryId := 9 }

/-- C7 witness: a concrete accepted confirmation leaves the timer cancelled
and the delivery IN_PROGRESS (the TypeError fires only after those
effects), and a late timeout callback on the resulting store is a no-op for
either closure shape. -/
theorem confirmAssignment_cancels_timeout_witness :
    7 ∉ (handleAgentConfirmation 0 7 true c7Store).1.assignmentTimers ∧
    (findDelivery (handleAgentConfirmation 0 7 true c7Store).1 7).map
        Delivery.status = some .IN_PROGRESS ∧
    (handleAgentConfirmation 0 7 true c7Store).2 = .error .typeError ∧
    handleUnconfirmedAssignment 99 7 none (handleAgentConfirmation 0 7 true c7Store).1
      = ((handleAgentConfirmation 0 7 true c7Store).1, .ok ()) ∧
    handleUnconfirmedAssignment 99 7 (some c7Order)
        (handleAgentConfirmation 0 7 true c7Store).1
      = ((handleAgentConfirmation 0 7 true c7Store).1, .ok ()) := by
  obtain ⟨h1, h2, h3, h4⟩ :=
    confirmAssignment_cancels_timeout 0 99 7 c7Store c7Delivery rfl
  exact ⟨h1, h2, h3, h4 none, h4 (some c7Order)⟩

end DeliveryAssignmentService

/-! ## DeliveryMonitoringService -/

namespace DeliveryMonitoringService

/-- `DELAY_THRESHOLD = 15` minutes. -/
def DELAY_THRESHOLD : ℤ := 15

/-- `REASSIGNMENT_THRESHOLD = 120` minutes. -/
def REASSIGNMENT_THRESHOLD : ℤ := 120

/-- `stopMonitoring(deliveryId)`: `clearInterval` plus `Map.delete` on the
monitoring-interval map. -/
def stopMonitoring (s : Store) (deliveryId : ℕ) : Store :=
  { s with monitors := s.monitors.filter (fun x => decide (x ≠ deliveryId)) }

/-- `calculateDelay(scheduledTime, estimatedArrival)` =
`Math.max(0, Math.floor((estimatedArrival - scheduledTime) / (1000 * 60)))`. -/
def calculateDelay (scheduledTime estimatedArrival : ℤ) : ℤ :=
  max 0 (Int.fdiv (estimatedArrival - scheduledTime) (1000 * 60))

/-- `deg2rad(deg) = deg * (Math.PI / 180)`. -/
noncomputable def deg2rad (deg : ℝ) : ℝ := deg * (Real.pi / 180)

/-- JavaScript `Math.atan2(y, x)`: the argument of the point `(x, y)`. -/
noncomputable def atan2 (y x : ℝ) : ℝ := Complex.arg ⟨x, y⟩

/-- `calculateDistance(point1, point2)`: the haversine great-circle distance
in km (Earth radius 6371). -/
noncomputable def calculateDistance (point1 point2 : Location) : ℝ :=
  let R : ℝ := 6371
  let dLat := deg2rad ((point2.latitude : ℝ) - (point1.latitude : ℝ))
  let dLon := deg2rad ((point2.longitude : ℝ) - (point1.longitude : ℝ))
  let a := Real.sin (dLat / 2) * Real.sin (dLat / 2) +
    Real.cos (deg2rad (point1.latitude : ℝ)) * Real.cos (deg2rad (point2.latitude : ℝ)) *
      Real.sin (dLon / 2) * Real.sin (dLon / 2)
  let c := 2 * atan2 (Real.sqrt a) (Real.sqrt (1 - a))
  R * c

/-- `calculateETA(currentLocation, deliveryLocation)` with the distance
already computed: `const eta = new Date(); eta.setHours(eta.getHours() +
estimatedTimeHours)`.  `getHours` is `floor(t / msPerHour) mod 24` (timezone
taken as UTC) and `setHours` rebuilds the timestamp from the start of the
current hour; its argument passes through `ToIntegerOrInfinity`, which on
the nonnegative values arising here (hour-of-day plus a nonnegative travel
time) is `Int.floor` — note the fractional hours are therefore truncated. -/
noncomputable def calculateETA (now : ℤ) (distanceKm : ℝ) : ℤ :=
  let averageSpeed : ℝ := 30
  let estimatedTimeHours := distanceKm / averageSpeed
  let hourOfDay : ℤ := (Int.fdiv now 3600000) % 24
  now - hourOfDay * 3600000 + ⌊(hourOfDay : ℝ) + estimatedTimeHours⌋ * 3600000

/-- `triggerHumanIntervention`: urgent alerts to the admin over WhatsApp,
Telegram and email. -/
def triggerHumanIntervention (delivery : Delivery) (s : Store) : Store :=
  { s with sent := s.sent ++
      [Msg.adminDelayAlertWhatsapp delivery.id, Msg.adminDelayAlertTelegram delivery.id,
       Msg.adminDelayAlertEmail delivery.id] }

/-- `handleDelay(delivery, delayMinutes)`: guarded by `delayNotified`; on
first breach it notifies customer and agent, fans out the admin alert, and
writes `delayMinutes`, `delayNotified = true` and `humanIntervention = true`
to the delivery. -/
def handleDelay (delivery : Delivery) (delayMinutes : ℤ) (s : Store) : Store :=
  if delivery.delayNotified then s
  else
    let s1 := { s with sent := s.sent ++
        [Msg.delayCustomer delivery.id, Msg.delayAgent delivery.id] }
    let s2 := triggerHumanIntervention delivery s1
    updateDelivery s2 delivery.id (fun d =>
      { d with delayMinutes := some delayMinutes, delayNotified := true,
               humanIntervention := true })

/-- Annotation written by `initiateReassignment` (the recomputed delay that
the source interpolates into the text is elided). -/
def reassignedNote : String := "Reassigned due to excessive delay"

/-- `initiateReassignment(delivery)`: mark the delivery FAILED with a note,
notify the displaced agent, then call
`deliveryAssignmentService.assignDeliveryAgent`.  That pass always throws
(see `attemptAssignment`), but the error is swallowed by
`checkDeliveryProgress`'s catch, so the store state it produced — including
the ASSIGNED rows it persisted — stands. -/
def initiateReassignment (now : ℤ) (delivery : Delivery) (s : Store) : Store :=
  let s1 := updateDelivery s delivery.id (fun d =>
    { d with status := .FAILED, notes := some reassignedNote })
  let s2 := { s1 with sent := s1.sent ++ [Msg.reassignedAgentNotice delivery.id] }
  (DeliveryAssignmentService.assignDeliveryAgent now delivery.orderId s2).1

/-- `checkDeliveryProgress(deliveryId)` — the periodic 5-minute tick.  Only
a missing delivery or status COMPLETED stops the monitor; any other status
falls through to the delay logic using the stored `estimatedArrival`
(defaulting to the current time).  The reassignment test reads
`delivery.humanIntervention` from the record fetched at the top of the tick,
before `handleDelay` may have set it. -/
def checkDeliveryProgress (now : ℤ) (deliveryId : ℕ) (s : Store) : Store :=
  match findDelivery s deliveryId with
  | none => stopMonitoring s deliveryId
  | some delivery =>
      if delivery.status = .COMPLETED then stopMonitoring s deliveryId
      else
        let delayMinutes :=
          calculateDelay delivery.scheduledTime (delivery.estimatedArrival.getD now)
        let s1 :=
          if DELAY_THRESHOLD < delayMinutes then handleDelay delivery delayMinutes s
          else s
        if REASSIGNMENT_THRESHOLD < delayMinutes ∧ delivery.humanIntervention = false then
          initiateReassignment now delivery s1
        else s1

/-- `updateLocation(deliveryId, location)`: store the new location, the
update timestamp and the recomputed ETA, then run the delay check.  The
computed `delayMinutes` is returned alongside the store for specification
purposes (the source discards it after the threshold comparison). -/
noncomputable def updateLocation (now : ℤ) (deliveryId : ℕ) (location : Location)
    (s : Store) : Except Err (Store × ℤ) :=
  match findDelivery s deliveryId with
  | none => .error .deliveryNotFound
  | some delivery =>
      match findOrder s delivery.orderId with
      | none => .error .orderNotFound
      | some order =>
          let eta := calculateETA now (calculateDistance location order.deliveryLocation)
          let s1 := updateDelivery s deliveryId (fun d =>
            { d with currentLocation := some location, lastLocationUpdate := some now,
                     estimatedArrival := some eta })
          let delayMinutes := calculateDelay delivery.scheduledTime eta
          if DELAY_THRESHOLD < delayMinutes then
            .ok (handleDelay delivery delayMinutes s1, delayMinutes)
          else .ok (s1, delayMinutes)

/-- A delivery already FAILED (terminal) whose stored ETA is 16 minutes past
schedule, not yet delay-notified, still monitored. -/
def c6Delivery : Delivery :=
  { baseDelivery with id := 1, orderId := 5, agentId := 10, status := .FAILED,
                      scheduledTime := 0, estimatedArrival := some 960000 }

/-- World for the terminal-status tick. -/
def c6Store : Store :=
  { users := [], orders := [], deliveries := [c6Delivery],
    assignmentTimers := [], monitors := [1], sent := [], nextDeliveryId := 2 }

/-- C6 counterexample: a periodic tick that observes the terminal status
FAILED does not discard its effects — it sends the five delay notifications
(customer, agent, three admin channels), writes `delayNotified`,
`humanIntervention` and `delayMinutes` to the delivery, and leaves the
periodic timer armed.  Only COMPLETED (or a missing record) stops the
monitor. -/
theorem checkDeliveryProgress_terminal_ce :
    c6Delivery.status = .FAILED ∧
    (checkDeliveryProgress 0 1 c6Store).sent.length = 5 ∧
    (findDelivery (checkDeliveryProgress 0 1 c6Store) 1).map
        (fun d => (d.delayNotified, d.humanIntervention, d.delayMinutes))
      = some (true, true, some 16) ∧
    1 ∈ (checkDeliveryProgress 0 1 c6Store).monitors := by
  refine ⟨rfl, rfl, rfl, ?_⟩
  decide

/-- C6 (amended): a tick that observes status COMPLETED (the only terminal
status checked) performs exactly `stopMonitoring`: no delivery write, no
notification, and the periodic timer is cancelled. -/
theorem checkDeliveryProgress_completed_noop (now : ℤ) (deliveryId : ℕ)
    (s : Store) (d : Delivery)
    (hfind : findDelivery s deliveryId = some d) (hc : d.status = .COMPLETED) :
    checkDeliveryProgress now deliveryId s = stopMonitoring s deliveryId ∧
    (stopMonitoring s deliveryId).deliveries = s.deliveries ∧
    (stopMonitoring s deliveryId).sent = s.sent ∧
    deliveryId ∉ (stopMonitoring s deliveryId).monitors := by
  refine ⟨?_, rfl, rfl, ?_⟩
  · unfold checkDeliveryProgress
    rw [hfind]
    simp [hc]
  · simp [stopMonitoring, List.mem_filter]

/-- A COMPLETED delivery still carrying a stale monitor entry. -/
def c6Done : Delivery := { baseDelivery with id := 2, orderId := 5, status := .COMPLETED }

/-- World for the completed-status tick. -/
def c6DoneStore : Store :=
  { users := [], orders := [], deliveries := [c6Done],
    assignmentTimers := [], monitors := [2], sent := [], nextDeliveryId := 3 }

/-- C6 witness: a tick on a COMPLETED delivery only cancels its timer. -/
theorem checkDeliveryProgress_completed_noop_witness :
    checkDeliveryProgress 0 2 c6DoneStore = stopMonitoring c6DoneStore 2 ∧
    (stopMonitoring c6DoneStore 2).deliveries = c6DoneStore.deliveries ∧
    (stopMonitoring c6DoneStore 2).sent = c6DoneStore.sent ∧
    2 ∉ (stopMonitoring c6DoneStore 2).monitors :=
  checkDeliveryProgress_completed_noop 0 2 c6DoneStore c6Done rfl rfl

/-- The haversine distance from a point to itself is zero. -/
theorem calculateDistance_self (p : Location) : calculateDistance p p = 0 := by
  unfold calculateDistance deg2rad atan2
  dsimp only
  simp only [sub_self, zero_mul, zero_div, Real.sin_zero, mul_zero, add_zero,
    zero_add, sub_zero, Real.sqrt_zero, Real.sqrt_one]
  have h1 : (⟨1, 0⟩ : ℂ) = 1 := by
    apply Complex.ext <;> simp
  rw [h1, Complex.arg_one]
  ring

/-- With zero distance the recomputed ETA is exactly the current time. -/
theorem calculateETA_zero (now : ℤ) : calculateETA now 0 = now := by
  unfold calculateETA
  dsimp only
  rw [zero_div, add_zero, Int.floor_intCast]
  ring

/-- A found delivery carries the id it was looked up by. -/
theorem findDelivery_id {s : Store} {i : ℕ} {d : Delivery}
    (h : findDelivery s i = some d) : d.id = i := by
  have := List.find?_some h
  simpa using this

/-- `handleDelay` never touches the orders table. -/
theorem handleDelay_orders (d0 : Delivery) (dm : ℤ) (s : Store) :
    (handleDelay d0 dm s).orders = s.orders := by
  unfold handleDelay triggerHumanIntervention updateDelivery
  split <;> rfl

/-- Reading back the monitored delivery after `handleDelay`. -/
theorem findDelivery_handleDelay (d0 : Delivery) (dm : ℤ) (s : Store) (i : ℕ)
    (hid : d0.id = i) :
    findDelivery (handleDelay d0 dm s) i
      = (findDelivery s i).map (fun d =>
          if d0.delayNotified then d
          else { d with delayMinutes := some dm, delayNotified := true,
                        humanIntervention := true }) := by
  unfold handleDelay triggerHumanIntervention
  split
  · rename_i hn
    simp [hn]
  · rename_i hn
    rw [hid]
    rw [findDelivery_updateDelivery _ i
      (fun d => { d with delayMinutes := some dm, delayNotified := true,
                         humanIntervention := true }) (fun d => rfl)]
    simp only [hn, if_false, Bool.false_eq_true]
    rfl

/-- Characterization of one `updateLocation` call: it succeeds on a found
delivery and order, returns the delay computed from the delivery's
`scheduledTime` and the ETA recomputed from the current time and the
distance between the pushed location and the order's destination, stores
that ETA, and leaves `scheduledTime`, `orderId` and the orders table
unchanged. -/
theorem updateLocation_spec (now : ℤ) (deliveryId : ℕ) (loc : Location)
    (s : Store) (d : Delivery) (o : Order)
    (hd : findDelivery s deliveryId = some d)
    (ho : findOrder s d.orderId = some o) :
    ∃ s1, updateLocation now deliveryId loc s
        = .ok (s1, calculateDelay d.scheduledTime
                 (calculateETA now (calculateDistance loc o.deliveryLocation))) ∧
      (findDelivery s1 deliveryId).map Delivery.estimatedArrival
        = some (some (calculateETA now (calculateDistance loc o.deliveryLocation))) ∧
      (findDelivery s1 deliveryId).map Delivery.scheduledTime = some d.scheduledTime ∧
      (findDelivery s1 deliveryId).map Delivery.orderId = some d.orderId ∧
      s1.orders = s.orders := by
  unfold updateLocation
  rw [hd]
  dsimp only
  rw [ho]
  dsimp only
  have hbase : findDelivery (updateDelivery s deliveryId (fun d0 =>
      { d0 with currentLocation := some loc, lastLocationUpdate := some now,
                estimatedArrival := some (calculateETA now
                  (calculateDistance loc o.deliveryLocation)) })) deliveryId
      = some { d with currentLocation := some loc, lastLocationUpdate := some now,
                      estimatedArrival := some (calculateETA now
                        (calculateDistance loc o.deliveryLocation)) } := by
    rw [findDelivery_updateDelivery s deliveryId (fun d0 =>
        { d0 with currentLocation := some loc, lastLocationUpdate := some now,
                  estimatedArrival := some (calculateETA now
                    (calculateDistance loc o.deliveryLocation)) }) (fun d0 => rfl), hd]
    rfl
  split
  · rename_i hgt
    refine ⟨_, rfl, ?_, ?_, ?_, ?_⟩
    · rw [findDelivery_handleDelay d _ _ deliveryId (findDelivery_id hd), hbase]
      by_cases hn : d.delayNotified <;> simp [hn]
    · rw [findDelivery_handleDelay d _ _ deliveryId (findDelivery_id hd), hbase]
      by_cases hn : d.delayNotified <;> simp [hn]
    · rw [findDelivery_handleDelay d _ _ deliveryId (findDelivery_id hd), hbase]
      by_cases hn : d.delayNotified <;> simp [hn]
    · rw [handleDelay_orders]
      rfl
  · refine ⟨_, rfl, ?_, ?_, ?_, rfl⟩
    · rw [hbase]; rfl
    · rw [hbase]; rfl
    · rw [hbase]; rfl

/-- C9 (amended): `updateLocation` is deterministic in the pair (current
time, coordinates): a second call with identical coordinates *at the same
current time* produces the same `delayMinutes` and leaves the stored
`estimatedArrival` identical (the derived fields do not feed back into the
computation).  The ETA is recomputed from the wall clock on every call, so
a second call at a later time — even before the next periodic tick — shifts
`estimatedArrival` and can change `delayMinutes` (see counterexample). -/
theorem updateLocation_repeat_same_time (now : ℤ) (deliveryId : ℕ)
    (loc : Location) (s s1 s2 : Store) (m1 m2 : ℤ)
    (h1 : updateLocation now deliveryId loc s = .ok (s1, m1))
    (h2 : updateLocation now deliveryId loc s1 = .ok (s2, m2)) :
    m2 = m1 ∧
    (findDelivery s2 deliveryId).map Delivery.estimatedArrival
      = (findDelivery s1 deliveryId).map Delivery.estimatedArrival := by
  rcases hd : findDelivery s deliveryId with _ | d
  · unfold updateLocation at h1; rw [hd] at h1; simp at h1
  rcases ho : findOrder s d.orderId with _ | o
  · unfold updateLocation at h1
    rw [hd] at h1
    dsimp only at h1
    rw [ho] at h1
    simp at h1
  obtain ⟨t1, ht1, he1, hs1, ho1, hord1⟩ :=
    updateLocation_spec now deliveryId loc s d o hd ho
  have hk := h1.symm.trans ht1
  rw [Except.ok.injEq, Prod.mk.injEq] at hk
  obtain ⟨hks, hkm⟩ := hk
  subst hks
  rcases hd1 : findDelivery s1 deliveryId with _ | d1
  · rw [hd1] at he1; simp at he1
  have hsched : d1.scheduledTime = d.scheduledTime := by
    rw [hd1] at hs1; simpa using hs1
  have horder : d1.orderId = d.orderId := by
    rw [hd1] at ho1; simpa using ho1
  have hfo1 : findOrder s1 d1.orderId = some o := by
    unfold findOrder at ho ⊢
    rw [hord1, horder]
    exact ho
  obtain ⟨t2, ht2, he2, -, -, -⟩ :=
    updateLocation_spec now deliveryId loc s1 d1 o hd1 hfo1
  have hk2 := h2.symm.trans ht2
  rw [Except.ok.injEq, Prod.mk.injEq] at hk2
  obtain ⟨hk2s, hk2m⟩ := hk2
  subst hk2s
  constructor
  · rw [hk2m, hkm, hsched]
  · rw [he2]
    rw [hd1] at he1
    exact he1.symm

/-- Location shared by the agent and the destination in the C9 scenario. -/
def c9Loc : Location := { latitude := 0, longitude := 0 }

/-- Order under delivery at the destination `c9Loc`. -/
def c9Order : Order :=
  { id := 5, orderNumber := 1003, customerId := 2, status := .IN_DELIVERY,
    totalAmount := 10, deliveryAddress := "dest", deliveryLocation := c9Loc }

/-- In-progress delivery scheduled at time 0. -/
def c9Delivery : Delivery :=
  { baseDelivery with id := 1, orderId := 5, agentId := 10,
                      status := .IN_PROGRESS, scheduledTime := 0 }

/-- World being monitored in the C9 scenario. -/
def c9Store : Store :=
  { users := [baseUser], orders := [c9Order], deliveries := [c9Delivery],
    assignmentTimers := [], monitors := [1], sent := [], nextDeliveryId := 2 }

/-- Store after `updateLocation` at time 0 from the destination itself. -/
def c9Store1 : Store :=
  updateDelivery c9Store 1 (fun d =>
    { d with currentLocation := some c9Loc, lastLocationUpdate := some (0 : ℤ),
             estimatedArrival := some (0 : ℤ) })

/-- Store after repeating the identical call at the same time 0. -/
def c9Store2 : Store :=
  updateDelivery c9Store1 1 (fun d =>
    { d with currentLocation := some c9Loc, lastLocationUpdate := some (0 : ℤ),
             estimatedArrival := some (0 : ℤ) })

/-- Store after the identical call arriving one minute later. -/
def c9Store1b : Store :=
  updateDelivery c9Store1 1 (fun d =>
    { d with currentLocation := some c9Loc, lastLocationUpdate := some (60000 : ℤ),
             estimatedArrival := some (60000 : ℤ) })

/-- First location push at time 0: distance 0, ETA = time 0, delay 0. -/
theorem c9_call1 : updateLocation 0 1 c9Loc c9Store = .ok (c9Store1, 0) := by
  unfold updateLocation
  rw [show findDelivery c9Store 1 = some c9Delivery from rfl]
  dsimp only
  rw [show findOrder c9Store c9Delivery.orderId = some c9Order from rfl]
  dsimp only
  rw [show c9Order.deliveryLocation = c9Loc from rfl, calculateDistance_self,
    calculateETA_zero]
  have hdel : calculateDelay c9Delivery.scheduledTime 0 = 0 := by
    show max 0 (Int.fdiv ((0 : ℤ) - 0) (1000 * 60)) = 0
    norm_num
  rw [hdel, if_neg (by norm_num [DELAY_THRESHOLD])]
  rfl

/-- Second identical push, still at time 0: same ETA, same delay. -/
theorem c9_call2 : updateLocation 0 1 c9Loc c9Store1 = .ok (c9Store2, 0) := by
  unfold updateLocation
  rw [show findDelivery c9Store1 1
      = some { c9Delivery with currentLocation := some c9Loc,
                               lastLocationUpdate := some (0 : ℤ),
                               estimatedArrival := some (0 : ℤ) } from rfl]
  dsimp only
  rw [show findOrder c9Store1 c9Delivery.orderId = some c9Order from rfl]
  dsimp only
  rw [show c9Order.deliveryLocation = c9Loc from rfl, calculateDistance_self,
    calculateETA_zero]
  have hdel : calculateDelay c9Delivery.scheduledTime 0 = 0 := by
    show max 0 (Int.fdiv ((0 : ℤ) - 0) (1000 * 60)) = 0
    norm_num
  rw [hdel, if_neg (by norm_num [DELAY_THRESHOLD])]
  rfl

/-- Identical push one minute later: the ETA moves to 60000 and the delay
becomes 1 minute. -/
theorem c9_call_later : updateLocation 60000 1 c9Loc c9Store1 = .ok (c9Store1b, 1) := by
  unfold updateLocation
  rw [show findDelivery c9Store1 1
      = some { c9Delivery with currentLocation := some c9Loc,
                               lastLocationUpdate := some (0 : ℤ),
                               estimatedArrival := some (0 : ℤ) } from rfl]
  dsimp only
  rw [show findOrder c9Store1 c9Delivery.orderId = some c9Order from rfl]
  dsimp only
  rw [show c9Order.deliveryLocation = c9Loc from rfl, calculateDistance_self,
    calculateETA_zero]
  have hdel : calculateDelay c9Delivery.scheduledTime 60000 = 1 := by
    show max 0 (Int.fdiv ((60000 : ℤ) - 0) (1000 * 60)) = 1
    decide
  rw [hdel, if_neg (by norm_num [DELAY_THRESHOLD])]
  rfl

/-- C9 counterexample: two `updateLocation` calls with identical coordinates
one minute apart (well before the next 5-minute tick) do not produce the
same derived fields — the second call returns delay 1 instead of 0 and
shifts the stored `estimatedArrival` from 0 to 60000, because the ETA is
recomputed from the wall clock. -/
theorem updateLocation_not_idempotent_ce :
    updateLocation 0 1 c9Loc c9Store = .ok (c9Store1, 0) ∧
    updateLocation 60000 1 c9Loc c9Store1 = .ok (c9Store1b, 1) ∧
    (findDelivery c9Store1 1).map Delivery.estimatedArrival = some (some 0) ∧
    (findDelivery c9Store1b 1).map Delivery.estimatedArrival = some (some 60000) :=
  ⟨c9_call1, c9_call_later, rfl, rfl⟩

/-- C9 witness: repeating the call with identical coordinates at the same
time 0 yields the same delay (0) and the same stored ETA. -/
theorem updateLocation_repeat_same_time_witness :
    (0 : ℤ) = 0 ∧
    (findDelivery c9Store2 1).map Delivery.estimatedArrival
      = (findDelivery c9Store1 1).map Delivery.estimatedArrival :=
  updateLocation_repeat_same_time 0 1 c9Loc c9Store c9Store1 c9Store2 0 0
    c9_call1 c9_call2

end DeliveryMonitoringService

end OrderMgmt
